import Mathlib

/-!
# Verification of the monetz-api user/auth core

Shallow embedding of the `user` service (`user/api.go`, `user/service.go`)
and of the `security` token package (not present in the sources; modelled
from the spec where so marked).  Machine words are `Nat` taken mod `2 ^ 32`
where the Go code overflows.
-/

namespace Monetz

/-! ## SHA-1 (`crypto/sha1` as used by `service.go`)

`Service.CreateUser` and `Service.ValidatePassword` both compute
`fmt.Sprintf("%x", sha1.Sum(password))`.  We embed SHA-1 itself
(FIPS 180-1) over byte lists, words being `Nat` reduced mod `2 ^ 32`. -/

/-- `2 ^ 32`, the word modulus of SHA-1. -/
def w32 : Nat := 4294967296

/-- 32-bit left rotation. -/
def rotl32 (n x : Nat) : Nat := ((x <<< n) ||| (x >>> (32 - n))) % w32

/-- The SHA-1 round function `f_t(b,c,d)`. -/
def sha1F (t b c d : Nat) : Nat :=
  if t < 20 then (b &&& c) ||| ((b ^^^ (w32 - 1)) &&& d)
  else if t < 40 then b ^^^ c ^^^ d
  else if t < 60 then (b &&& c) ||| (b &&& d) ||| (c &&& d)
  else b ^^^ c ^^^ d

/-- The SHA-1 round constant `K_t`. -/
def sha1K (t : Nat) : Nat :=
  if t < 20 then 0x5A827999
  else if t < 40 then 0x6ED9EBA1
  else if t < 60 then 0x8F1BBCDC
  else 0xCA62C1D6

/-- Big-endian 8-byte encoding of a length in bits. -/
def be64 (n : Nat) : List Nat :=
  [n / 2 ^ 56 % 256, n / 2 ^ 48 % 256, n / 2 ^ 40 % 256, n / 2 ^ 32 % 256,
   n / 2 ^ 24 % 256, n / 2 ^ 16 % 256, n / 2 ^ 8 % 256, n % 256]

/-- SHA-1 message padding: `0x80`, zeros to 56 mod 64, then the bit length. -/
def sha1Pad (msg : List Nat) : List Nat :=
  msg ++ 128 :: List.replicate ((119 - msg.length % 64) % 64) 0 ++ be64 (8 * msg.length)

/-- Group bytes into big-endian 32-bit words. -/
def bytesToWords : List Nat → List Nat
  | a :: b :: c :: d :: rest => (((a * 256 + b) * 256 + c) * 256 + d) :: bytesToWords rest
  | _ => []

/-- Split a word list into chunks of 16 words (one 512-bit block each);
`fuel` bounds the recursion so that the definition reduces by iota. -/
def chunk16F : Nat → List Nat → List (List Nat)
  | 0, _ => []
  | _, [] => []
  | fuel + 1, x :: rest => ((x :: rest).take 16) :: chunk16F fuel ((x :: rest).drop 16)

/-- Split a word list into chunks of 16 words (one 512-bit block each). -/
def chunk16 (l : List Nat) : List (List Nat) := chunk16F l.length l

/-- Extend the 16-word block to the 80-word message schedule (`k` more words). -/
def sha1Extend (a : List Nat) : Nat → List Nat
  | 0 => a
  | k + 1 =>
    let i := a.length
    sha1Extend
      (a ++ [rotl32 1 (a.getD (i - 3) 0 ^^^ a.getD (i - 8) 0 ^^^
                       a.getD (i - 14) 0 ^^^ a.getD (i - 16) 0)]) k

/-- One SHA-1 round: state `(a,b,c,d,e)`, input `(t, W_t)`. -/
def sha1RoundStep (x : Nat × Nat × Nat × Nat × Nat) (tw : Nat × Nat) :
    Nat × Nat × Nat × Nat × Nat :=
  match x, tw with
  | (a, b, c, d, e), (t, w) =>
    ((rotl32 5 a + sha1F t b c d + e + sha1K t + w) % w32, a, rotl32 30 b, c, d)

/-- Compress one 16-word chunk into the running hash value. -/
def sha1Chunk (h : Nat × Nat × Nat × Nat × Nat) (ws : List Nat) :
    Nat × Nat × Nat × Nat × Nat :=
  match h with
  | (h0, h1, h2, h3, h4) =>
    match ((List.range 80).zip (sha1Extend ws 64)).foldl sha1RoundStep
        (h0, h1, h2, h3, h4) with
    | (a, b, c, d, e) =>
      ((h0 + a) % w32, (h1 + b) % w32, (h2 + c) % w32, (h3 + d) % w32, (h4 + e) % w32)

/-- SHA-1 initial hash value. -/
def sha1Init : Nat × Nat × Nat × Nat × Nat :=
  (0x67452301, 0xEFCDAB89, 0x98BADCFE, 0x10325476, 0xC3D2E1F0)

/-- SHA-1 of a byte list, as the five 32-bit hash words. -/
def sha1Words (msg : List Nat) : Nat × Nat × Nat × Nat × Nat :=
  (chunk16 (bytesToWords (sha1Pad msg))).foldl sha1Chunk sha1Init

/-- Lowercase hex digit, as printed by Go's `%x`. -/
def hexDigit (n : Nat) : Char := if n < 10 then Char.ofNat (48 + n) else Char.ofNat (87 + n)

/-- Eight lowercase hex digits of a 32-bit word. -/
def hex8 (n : Nat) : List Char :=
  [hexDigit (n / 2 ^ 28 % 16), hexDigit (n / 2 ^ 24 % 16), hexDigit (n / 2 ^ 20 % 16),
   hexDigit (n / 2 ^ 16 % 16), hexDigit (n / 2 ^ 12 % 16), hexDigit (n / 2 ^ 8 % 16),
   hexDigit (n / 2 ^ 4 % 16), hexDigit (n % 16)]

/-- UTF-8 bytes of a character (Go's `[]byte(string)` view). -/
def utf8Bytes (c : Char) : List Nat :=
  let n := c.toNat
  if n < 128 then [n]
  else if n < 2048 then [192 + n / 64, 128 + n % 64]
  else if n < 65536 then [224 + n / 4096, 128 + n / 64 % 64, 128 + n % 64]
  else [240 + n / 262144, 128 + n / 4096 % 64, 128 + n / 64 % 64, 128 + n % 64]

/-- UTF-8 byte list of a string. -/
def strBytes (s : String) : List Nat := s.data.foldr (fun c r => utf8Bytes c ++ r) []

/-- `fmt.Sprintf("%x", sha1(s))`: the 40-character lowercase hex SHA-1 digest,
exactly the password transform of `service.go`. -/
def sha1hex (s : String) : String :=
  match sha1Words (strBytes s) with
  | (h0, h1, h2, h3, h4) => ⟨hex8 h0 ++ hex8 h1 ++ hex8 h2 ++ hex8 h3 ++ hex8 h4⟩

/-! ## Data model (`users` table / `User` entity)

`service.go` scans rows as `id, email, password, first_name, last_name`
into `u.ID, u.Email, u.Password, u.FirstName, u.LastName`. -/

structure User where
  ID : String
  Email : String
  Password : String
  FirstName : String
  LastName : String
deriving Repr, DecidableEq

/-- The `users` table, in insertion order. -/
abbrev Store := List User

/-- `select id, email, password, first_name, last_name from users where email = $1`
(single-row lookup). -/
def findByEmail (store : Store) (email : String) : Option User :=
  store.find? (fun u => u.Email == email)

/-- `select exists(select 1 from users where email = $1)`. -/
def emailTaken (store : Store) (email : String) : Bool :=
  (findByEmail store email).isSome

/-! ## Token service (`encore.app/user/security`) -/

/-- Modelled from the spec: the `security` package (Token Service) belongs to
this repository but is absent from the given sources.  Per the spec an
`IdentityToken` is "a signed assertion of `{email, issuedAt, expiry}` (claims),
opaque bytes"; every other byte string is malformed. -/
inductive TokenStr where
  | signed (email : String) (issuedAt expiry : Nat)
  | malformed (raw : String)
deriving Repr, DecidableEq

/-- Modelled from the spec: the claims `{email, issuedAt, expiry}` embedded in
a token. -/
structure Claims where
  email : String
  issuedAt : Nat
  expiry : Nat
deriving Repr, DecidableEq

/-- Token lifetime (the spec leaves the duration abstract; only positivity and
arithmetic on `issuedAt + tokenTTL` matter). -/
def tokenTTL : Nat := 3600

/-- Modelled from the spec: `security.NewToken` / `Issue(email)` "produces a
signed token embedding `email` and an expiry". -/
def NewToken (now : Nat) (email : String) : TokenStr :=
  .signed email now (now + tokenTTL)

/-- Modelled from the spec: `Verify` distinguishes a signature/format failure
from an elapsed expiry. -/
inductive ParseErr where
  | invalid
  | expired
deriving Repr, DecidableEq

/-- Modelled from the spec: `security.ParseToken` / `Verify(tokenBytes)`
"checks signature integrity first (reject malformed/forged tokens as `Invalid`
without inspecting claims), then checks expiry". -/
def ParseToken (now : Nat) (t : TokenStr) : Except ParseErr Claims :=
  match t with
  | .malformed _ => .error .invalid
  | .signed e iat ex => if ex < now then .error .expired else .ok ⟨e, iat, ex⟩

/-- Modelled from the spec: `security.GetClaims` yields the claim map of a
verified token (the `tData` of `api.go`, read as `tData["email"].(string)`);
for a verified token the accessor itself does not fail. -/
def GetClaims (c : Claims) : List (String × String) := [("email", c.email)]

/-- Map lookup, as `tData["email"]`. -/
def lookupClaim (k : String) (m : List (String × String)) : Option String :=
  (m.find? (fun p => p.1 == k)).map (fun p => p.2)

/-- Opaque rendering of a token as the string carried in request/response
bodies and `Meta` values. -/
def tokenRender : TokenStr → String
  | .signed e _ _ => "signed(" ++ e ++ ")"
  | .malformed raw => raw

/-! ## encore.dev error model -/

/-- The `errs` codes used by `api.go`. -/
inductive ErrCode where
  | invalidArgument
  | unauthenticated
  | alreadyExists
  | internal
deriving Repr, DecidableEq

/-- An `errs.Error` as built in `api.go`: `errs.B().Meta(k, v).Code(c).Msg(m)`. -/
structure ApiError where
  code : ErrCode
  msg : String
  metaKey : String
  metaVal : String
deriving Repr, DecidableEq

/-- Which downstream infrastructure calls fail during one request (store
round-trips, token signing, event publish).  The Go code observes only
`err != nil` from these collaborators. -/
structure Flags where
  dbFindFails : Bool
  dbExistsFails : Bool
  dbInsertFails : Bool
  signFails : Bool
  publishFails : Bool
deriving Repr, DecidableEq

/-- A run in which every downstream collaborator succeeds. -/
def noFail : Flags := ⟨false, false, false, false, false⟩

/-! ## `service.go` -/

namespace Service

/-- `Service.ValidatePassword`: SHA-1-hash the submitted password and compare
with the stored digest; `p != u.Password` is an error. -/
def ValidatePassword (u : User) (password : String) : Except Unit Unit :=
  if sha1hex password ≠ u.Password then .error () else .ok ()

/-- `Service.ValidateUser`: single-row lookup by email, then password check.
A store error and `sql: no rows` alike return one generic error
(`"invalid user %w"`), as does a failed password check (`"invalid user"`). -/
def ValidateUser (dbFindFails : Bool) (store : Store) (email password : String) :
    Except Unit Unit :=
  if dbFindFails then .error ()
  else
    match findByEmail store email with
    | none => .error ()
    | some u =>
      match ValidatePassword u password with
      | .error _ => .error ()
      | .ok _ => .ok ()

/-- The store-level `insert into users ...`: the `users` table carries a
uniqueness constraint on `email` (spec §6), so `Exec` errors on a duplicate
row; otherwise the row is appended. -/
def dbInsert (store : Store) (u : User) : Except Unit Store :=
  if emailTaken store u.Email then .error () else .ok (store ++ [u])

/-- `Service.CreateUser`: hash the password, generate an id (`userID` stands
for `uuid.New().String()`), insert.  Every `Exec` error — the uniqueness
conflict included — returns as the single generic error
(`"could not create user: %w"`). -/
def CreateUser (dbInsertFails : Bool) (store : Store)
    (userID email password firstName lastName : String) : Except Unit Store :=
  let hashedPassword := sha1hex password
  if dbInsertFails then .error ()
  else dbInsert store ⟨userID, email, hashedPassword, firstName, lastName⟩

/-- `Service.UserExists`: the advisory existence probe. -/
def UserExists (dbExistsFails : Bool) (store : Store) (email : String) :
    Except Unit Bool :=
  if dbExistsFails then .error () else .ok (emailTaken store email)

end Service

/-! ## `api.go` -/

/-- Characters of the regexp class `[a-zA-Z0-9._%+-]` (local part). -/
def isLocalChar (c : Char) : Bool :=
  c.isAlpha || c.isDigit || c == '.' || c == '_' || c == '%' || c == '+' || c == '-'

/-- Characters of the regexp class `[a-zA-Z0-9.-]` (domain part). -/
def isDomainChar (c : Char) : Bool :=
  c.isAlpha || c.isDigit || c == '.' || c == '-'

/-- Split a character list at every occurrence of `sep` (the separators are
dropped; `n` separators yield `n + 1` pieces). -/
def splitOnChar (sep : Char) : List Char → List (List Char)
  | [] => [[]]
  | c :: rest =>
    let r := splitOnChar sep rest
    if c == sep then [] :: r
    else
      match r with
      | [] => [[c]]
      | h :: t => (c :: h) :: t

/-- The anchored regexp piece `[a-zA-Z0-9.-]+\.[a-zA-Z]{2,}` (after the `@`).
The `[a-zA-Z]{2,}` class has no dot, so the separating `\.` can only be the
LAST dot of the string, and everything before that dot (further dots included)
must lie in `[a-zA-Z0-9.-]` and be nonempty.  Hence: the maximal alphabetic
suffix has length ≥ 2, is preceded by a `'.'`, and a nonempty class-valid
prefix precedes that dot. -/
def domainMatches (dom : List Char) : Bool :=
  let rev := dom.reverse
  let tld := rev.takeWhile (fun c => c.isAlpha)
  match rev.drop tld.length with
  | '.' :: xrev => decide (2 ≤ tld.length) && !xrev.isEmpty && xrev.all isDomainChar
  | _ => false

/-- `isValidEmail`: the anchored regexp
`^[a-zA-Z0-9._%+-]+@[a-zA-Z0-9.-]+\.[a-zA-Z]{2,}$` of `api.go`.  Neither
character class contains `@`, so a match splits the string at its unique `@`. -/
def isValidEmail (email : String) : Bool :=
  match splitOnChar '@' email.data with
  | [lp, dom] => !lp.isEmpty && lp.all isLocalChar && domainMatches dom
  | _ => false

/-- `AuthParams`. -/
structure AuthParams where
  Email : String
  Password : String
deriving Repr, DecidableEq

/-- `CreateUserParams`. -/
structure CreateUserParams where
  Email : String
  Password : String
  FirstName : String
  LastName : String
deriving Repr, DecidableEq

/-- Outcome of `API.Auth`: an `AuthResponse{Token}` or an `errs.Error`. -/
inductive AuthResult where
  | ok (token : TokenStr)
  | err (e : ApiError)
deriving Repr, DecidableEq

/-- Outcome of `API.ValidateToken`; `crash` is the panic of the unchecked
type assertion `tData["email"].(string)`. -/
inductive ValidateTokenResult where
  | ok (email : String)
  | err (e : ApiError)
  | crash
deriving Repr, DecidableEq

/-- Outcome of `API.CreateUser`: a `CreateUserResponse{Token}` or an
`errs.Error`. -/
inductive CreateUserResult where
  | ok (token : TokenStr)
  | err (e : ApiError)
deriving Repr, DecidableEq

namespace API

/-- `API.Auth` (`POST /v1/auth`): validate credentials (any failure —
including a store error — becomes `Unauthenticated "invalid credentials"`),
sign a token, publish an `AuthEvent`; signing and publish failures become
`Internal "internal error"`. -/
def Auth (fl : Flags) (store : Store) (now : Nat) (p : AuthParams) : AuthResult :=
  match Service.ValidateUser fl.dbFindFails store p.Email p.Password with
  | .error _ => .err ⟨.unauthenticated, "invalid credentials", "auth", p.Email⟩
  | .ok _ =>
    if fl.signFails then .err ⟨.internal, "internal error", "auth", p.Email⟩
    else
      let token := NewToken now p.Email
      if fl.publishFails then .err ⟨.internal, "internal error", "auth", p.Email⟩
      else .ok token

/-- `API.ValidateToken` (`POST /v1/validate-token`): a `ParseToken` error (of
either kind) becomes `Internal "internal error"`; on success the handler reads
`tData["email"].(string)` with an unchecked type assertion. -/
def ValidateToken (now : Nat) (token : TokenStr) : ValidateTokenResult :=
  match ParseToken now token with
  | .error _ => .err ⟨.internal, "internal error", "validate_token", tokenRender token⟩
  | .ok c =>
    match lookupClaim "email" (GetClaims c) with
    | none => .crash
    | some e => .ok e

/-- `API.CreateUser` (`POST /v1/users`): email-format validation, advisory
existence probe, insert, token signing, publish.  The store is read at two
suspension points — the probe and the insert; `checkStore` and `insertStore`
are the tables each round-trip sees (they differ only when a concurrent
request commits in between; a sequential caller passes the same store twice).
Returns the result together with the store after the request. -/
def CreateUser (fl : Flags) (checkStore insertStore : Store) (userID : String)
    (now : Nat) (p : CreateUserParams) : CreateUserResult × Store :=
  if !isValidEmail p.Email then
    (.err ⟨.invalidArgument, "invalid email format", "create_user", p.Email⟩, insertStore)
  else
    match Service.UserExists fl.dbExistsFails checkStore p.Email with
    | .error _ => (.err ⟨.internal, "internal error", "create_user", p.Email⟩, insertStore)
    | .ok true => (.err ⟨.alreadyExists, "email already exists", "create_user", p.Email⟩, insertStore)
    | .ok false =>
      match Service.CreateUser fl.dbInsertFails insertStore userID
          p.Email p.Password p.FirstName p.LastName with
      | .error _ => (.err ⟨.internal, "could not create user", "create_user", p.Email⟩, insertStore)
      | .ok s =>
        if fl.signFails then (.err ⟨.internal, "internal error", "create_user", p.Email⟩, s)
        else
          if fl.publishFails then (.err ⟨.internal, "internal error", "create_user", p.Email⟩, s)
          else (.ok (NewToken now p.Email), s)

end API

/-! ## Interleaving two `CreateUser` requests (spec §5)

Each request suspends exactly at its store round-trips: the advisory
existence probe and the insert.  A schedule decides which request performs
its next round-trip against the current shared table. -/

/-- Control state of one in-flight `API.CreateUser` request, cut at its store
suspension points. -/
inductive ReqPhase where
  | atCheck
  | atInsert
  | done (r : CreateUserResult)
deriving Repr, DecidableEq

/-- Advance one request by one store round-trip against the shared table `s`
(the pure post-insert tail — signing and publish — does not touch the store
and is folded into the insert step). -/
def reqStep (fl : Flags) (userID : String) (now : Nat) (p : CreateUserParams) :
    ReqPhase → Store → ReqPhase × Store
  | .atCheck, s =>
    if !isValidEmail p.Email then
      (.done (.err ⟨.invalidArgument, "invalid email format", "create_user", p.Email⟩), s)
    else
      match Service.UserExists fl.dbExistsFails s p.Email with
      | .error _ => (.done (.err ⟨.internal, "internal error", "create_user", p.Email⟩), s)
      | .ok true => (.done (.err ⟨.alreadyExists, "email already exists", "create_user", p.Email⟩), s)
      | .ok false => (.atInsert, s)
  | .atInsert, s =>
    match Service.CreateUser fl.dbInsertFails s userID
        p.Email p.Password p.FirstName p.LastName with
    | .error _ => (.done (.err ⟨.internal, "could not create user", "create_user", p.Email⟩), s)
    | .ok s' =>
      if fl.signFails then (.done (.err ⟨.internal, "internal error", "create_user", p.Email⟩), s')
      else
        if fl.publishFails then (.done (.err ⟨.internal, "internal error", "create_user", p.Email⟩), s')
        else (.done (.ok (NewToken now p.Email)), s')
  | .done r, s => (.done r, s)

/-- Joint state of two concurrent `CreateUser` requests `A` and `B` over the
shared table. -/
structure TwoReqs where
  pa : ReqPhase
  pb : ReqPhase
  store : Store
deriving Repr, DecidableEq

/-- One scheduler step: `true` lets request `A` take its next store
round-trip, `false` request `B`. -/
def schedStep (fl : Flags) (uidA uidB : String) (now : Nat)
    (pA pB : CreateUserParams) (st : TwoReqs) (pick : Bool) : TwoReqs :=
  if pick then
    match reqStep fl uidA now pA st.pa st.store with
    | (p', s') => ⟨p', st.pb, s'⟩
  else
    match reqStep fl uidB now pB st.pb st.store with
    | (p', s') => ⟨st.pa, p', s'⟩

/-- Run a schedule (a list of picks) from a joint state. -/
def runSched (fl : Flags) (uidA uidB : String) (now : Nat)
    (pA pB : CreateUserParams) (sched : List Bool) (st : TwoReqs) : TwoReqs :=
  sched.foldl (schedStep fl uidA uidB now pA pB) st

/-! ## Derived notions used by the statements -/

/-- The email claim a caller extracts from a token at time `now`:
`ExtractClaims(Verify(token)).email`, i.e. `tData["email"]` after a
successful parse. -/
def extractEmail (now : Nat) (t : TokenStr) : Option String :=
  match ParseToken now t with
  | .error _ => none
  | .ok c => lookupClaim "email" (GetClaims c)

/-- Concrete race scenario: request `A` of the interleaving analysis. -/
def pA0 : CreateUserParams := ⟨"u@x.com", "pw", "A", "B"⟩

/-- Concrete race scenario: request `B` of the interleaving analysis. -/
def pB0 : CreateUserParams := ⟨"u@x.com", "qw", "C", "D"⟩

/-- The row request `A` inserts in the race scenario. -/
def uA : User := ⟨"ida", "u@x.com", sha1hex "pw", "A", "B"⟩

/-- The row request `B` inserts in the race scenario. -/
def uB : User := ⟨"idb", "u@x.com", sha1hex "qw", "C", "D"⟩

/-- The success outcome of the race scenario (both requests would sign the
same claim). -/
def okR : CreateUserResult := .ok (.signed "u@x.com" 0 3600)

/-- The `AlreadyExists` outcome of the race scenario. -/
def alreadyR : CreateUserResult :=
  .err ⟨.alreadyExists, "email already exists", "create_user", "u@x.com"⟩

/-- The outcome the loser receives when its insert hits the store's
uniqueness conflict. -/
def conflictR : CreateUserResult :=
  .err ⟨.internal, "could not create user", "create_user", "u@x.com"⟩

/-- All joint states reachable by two concurrent `CreateUser` requests for
the same fresh email (scenario `pA0`/`pB0` from the empty table). -/
def RaceInv (st : TwoReqs) : Prop :=
  st = ⟨.atCheck, .atCheck, []⟩ ∨
  st = ⟨.atInsert, .atCheck, []⟩ ∨
  st = ⟨.atCheck, .atInsert, []⟩ ∨
  st = ⟨.atInsert, .atInsert, []⟩ ∨
  st = ⟨.done okR, .atCheck, [uA]⟩ ∨
  st = ⟨.done okR, .atInsert, [uA]⟩ ∨
  st = ⟨.atCheck, .done okR, [uB]⟩ ∨
  st = ⟨.atInsert, .done okR, [uB]⟩ ∨
  st = ⟨.done okR, .done alreadyR, [uA]⟩ ∨
  st = ⟨.done okR, .done conflictR, [uA]⟩ ∨
  st = ⟨.done alreadyR, .done okR, [uB]⟩ ∨
  st = ⟨.done conflictR, .done okR, [uB]⟩

/-- First store state of the duplicate-password scenario: one account created
from an empty table. -/
def store1 : Store := (API.CreateUser noFail [] [] "id1" 0 ⟨"a@x.com", "pw", "A", "B"⟩).2

/-- Second store state: a second account, different email, same plaintext
password. -/
def store2 : Store := (API.CreateUser noFail store1 store1 "id2" 0 ⟨"b@x.com", "pw", "C", "D"⟩).2

/-! ## Helper lemmas -/

set_option maxRecDepth 10000 in
/-- Faithfulness anchor: the embedded SHA-1 agrees with the FIPS 180-1 test
vector, so `sha1hex` is the digest `service.go` computes. -/
theorem sha1hex_abc : sha1hex "abc" = "a9993e364706816aba3e25717850c26c9cd0d89d" := by decide

set_option maxRecDepth 10000 in
/-- Two distinct plaintexts used in the witnesses have distinct digests. -/
theorem sha1hex_wrong_ne_pw : sha1hex "wrong" ≠ sha1hex "pw" := by decide

/-- `find?` skips a prefix in which nothing matches. -/
theorem find_append_of_none {α : Type} {p : α → Bool} {l₁ l₂ : List α}
    (h : l₁.find? p = none) : (l₁ ++ l₂).find? p = l₂.find? p := by
  induction l₁ with
  | nil => rfl
  | cons a t ih =>
    simp only [List.find?] at h ⊢
    cases hp : p a with
    | true => simp [hp] at h
    | false =>
      simp only [hp] at h ⊢
      exact ih h

/-- `find?` is determined by a prefix in which it succeeds. -/
theorem find_append_of_some {α : Type} {p : α → Bool} {l₁ l₂ : List α} {a : α}
    (h : l₁.find? p = some a) : (l₁ ++ l₂).find? p = some a := by
  induction l₁ with
  | nil => cases h
  | cons b t ih =>
    simp only [List.find?] at h ⊢
    cases hp : p b with
    | true => simpa [hp] using h
    | false =>
      simp only [hp] at h ⊢
      exact ih h

/-- Dissecting a successful `API.CreateUser` run with reliable infrastructure:
the email was valid and fresh, the returned token signs that email, and the
new row — carrying the plain SHA-1 digest of the password — was appended. -/
theorem createUser_ok {store : Store} {uid : String} {now : Nat}
    {p : CreateUserParams} {t : TokenStr} {s' : Store}
    (h : API.CreateUser noFail store store uid now p = (.ok t, s')) :
    isValidEmail p.Email = true ∧ emailTaken store p.Email = false ∧
    t = NewToken now p.Email ∧
    s' = store ++ [⟨uid, p.Email, sha1hex p.Password, p.FirstName, p.LastName⟩] := by
  cases hv : isValidEmail p.Email with
  | false => simp [API.CreateUser, hv] at h
  | true =>
    cases ht : emailTaken store p.Email with
    | true => simp [API.CreateUser, Service.UserExists, noFail, hv, ht] at h
    | false =>
      simp only [API.CreateUser, Service.UserExists, Service.CreateUser,
        Service.dbInsert, noFail, hv, ht, Bool.not_true, Bool.false_eq_true,
        if_false, if_true, ite_false, ite_true] at h
      injection h with h1 h2
      injection h1 with h1
      exact ⟨rfl, rfl, h1.symm, h2.symm⟩

/-! ## Claims -/

/-- C2 (counterexample): `ValidateToken("garbage")` does NOT yield the
`Invalid` outcome — the handler maps the parse failure to the generic
`InternalError` (`errs.Internal`, "internal error"), contradicting the claim
that the result "is not `InternalError`". -/
theorem c2_counterexample :
    API.ValidateToken 0 (.malformed "garbage") =
      .err ⟨.internal, "internal error", "validate_token", "garbage"⟩ := rfl

/-- C2 (amended): for every malformed token string and any time,
`ValidateToken` returns the `InternalError` error outcome ("internal error");
it does not crash — the unchecked claim assertion is never reached because
`ParseToken` already failed. -/
theorem c2_malformed_internal (now : Nat) (raw : String) :
    API.ValidateToken now (.malformed raw) =
      .err ⟨.internal, "internal error", "validate_token", raw⟩ ∧
    API.ValidateToken now (.malformed raw) ≠ .crash :=
  ⟨rfl, by simp [API.ValidateToken, ParseToken, tokenRender]⟩

/-- C3 (counterexample): advisory pre-check misses (probe store empty) but the
insert hits the uniqueness conflict (the row exists at insert time) — the
caller receives `InternalError "could not create user"`, not the
`AlreadyExists` the claim asserts. -/
theorem c3_counterexample :
    (API.CreateUser noFail [] [⟨"id0", "u@x.com", "d0", "A", "B"⟩] "id1" 0
        ⟨"u@x.com", "pw", "C", "D"⟩).1 =
      .err ⟨.internal, "could not create user", "create_user", "u@x.com"⟩ := rfl

/-- C3 (amended): `AlreadyExists` is returned only on the advisory pre-check
hit; when the pre-check misses and the store-level insert fails with the
uniqueness conflict, the handler wraps the generic service error as
`InternalError "could not create user"` instead. -/
theorem c3_conflict_vs_precheck (fl : Flags) (cs is : Store) (uid : String)
    (now : Nat) (p : CreateUserParams)
    (hv : isValidEmail p.Email = true)
    (hex : fl.dbExistsFails = false) (hins : fl.dbInsertFails = false) :
    (emailTaken cs p.Email = true →
      (API.CreateUser fl cs is uid now p).1 =
        .err ⟨.alreadyExists, "email already exists", "create_user", p.Email⟩) ∧
    (emailTaken cs p.Email = false → emailTaken is p.Email = true →
      (API.CreateUser fl cs is uid now p).1 =
        .err ⟨.internal, "could not create user", "create_user", p.Email⟩) := by
  constructor
  · intro hcs
    simp [API.CreateUser, Service.UserExists, hv, hex, hcs]
  · intro hcs his
    simp [API.CreateUser, Service.UserExists, Service.CreateUser,
      Service.dbInsert, hv, hex, hins, hcs, his]

/-- Witness for C3 (amended): both branches at concrete inputs. -/
theorem c3_conflict_vs_precheck_witness :
    (API.CreateUser noFail [⟨"id0", "u@x.com", "d0", "A", "B"⟩] [] "id1" 0
        ⟨"u@x.com", "pw", "C", "D"⟩).1 =
      .err ⟨.alreadyExists, "email already exists", "create_user", "u@x.com"⟩ ∧
    (API.CreateUser noFail [] [⟨"id0", "u@x.com", "d0", "A", "B"⟩] "id1" 0
        ⟨"u@x.com", "pw", "C", "D"⟩).1 =
      .err ⟨.internal, "could not create user", "create_user", "u@x.com"⟩ :=
  ⟨(c3_conflict_vs_precheck noFail [⟨"id0", "u@x.com", "d0", "A", "B"⟩] [] "id1" 0
      ⟨"u@x.com", "pw", "C", "D"⟩ (by decide) rfl rfl).1 rfl,
   (c3_conflict_vs_precheck noFail [] [⟨"id0", "u@x.com", "d0", "A", "B"⟩] "id1" 0
      ⟨"u@x.com", "pw", "C", "D"⟩ (by decide) rfl rfl).2 rfl rfl⟩

/-- C5 (counterexample): a store infrastructure failure during
`Authenticate`'s credential lookup does NOT surface as `InternalError`:
`ValidateUser` collapses the store error into its generic error and `Auth`
classifies it as `Unauthenticated "invalid credentials"` — even though the
stored credentials match. -/
theorem c5_counterexample :
    API.Auth ⟨true, false, false, false, false⟩
        [⟨"id0", "u@x.com", sha1hex "pw", "A", "B"⟩] 0 ⟨"u@x.com", "pw"⟩ =
      .err ⟨.unauthenticated, "invalid credentials", "auth", "u@x.com"⟩ := rfl

/-- C5 (amended): signing and publish failures in `Auth`, and probe, insert,
signing and publish failures in `CreateUser`, all surface as `InternalError`;
but a store failure during `Auth`'s credential lookup surfaces as
`Unauthenticated` (indistinguishable from bad credentials), not
`InternalError`. -/
theorem c5_infra_failures (store cs is : Store) (now : Nat) (uid e pw : String)
    (u : User) (p : CreateUserParams)
    (hfind : findByEmail store e = some u) (hpw : u.Password = sha1hex pw)
    (hv : isValidEmail p.Email = true)
    (hcs : emailTaken cs p.Email = false) (his : emailTaken is p.Email = false) :
    (API.Auth ⟨true, false, false, false, false⟩ store now ⟨e, pw⟩ =
      .err ⟨.unauthenticated, "invalid credentials", "auth", e⟩) ∧
    (API.Auth ⟨false, false, false, true, false⟩ store now ⟨e, pw⟩ =
      .err ⟨.internal, "internal error", "auth", e⟩) ∧
    (API.Auth ⟨false, false, false, false, true⟩ store now ⟨e, pw⟩ =
      .err ⟨.internal, "internal error", "auth", e⟩) ∧
    ((API.CreateUser ⟨false, true, false, false, false⟩ cs is uid now p).1 =
      .err ⟨.internal, "internal error", "create_user", p.Email⟩) ∧
    ((API.CreateUser ⟨false, false, true, false, false⟩ cs is uid now p).1 =
      .err ⟨.internal, "could not create user", "create_user", p.Email⟩) ∧
    ((API.CreateUser ⟨false, false, false, true, false⟩ cs is uid now p).1 =
      .err ⟨.internal, "internal error", "create_user", p.Email⟩) ∧
    ((API.CreateUser ⟨false, false, false, false, true⟩ cs is uid now p).1 =
      .err ⟨.internal, "internal error", "create_user", p.Email⟩) := by
  refine ⟨rfl, ?_, ?_, ?_, ?_, ?_, ?_⟩ <;>
    simp [API.Auth, API.CreateUser, Service.ValidateUser, Service.ValidatePassword,
      Service.UserExists, Service.CreateUser, Service.dbInsert,
      hfind, hpw, hv, hcs, his]

/-- Witness for C5 (amended), at concrete inputs. -/
theorem c5_infra_failures_witness :
    (API.Auth ⟨true, false, false, false, false⟩
        [⟨"id0", "u@x.com", sha1hex "pw", "A", "B"⟩] 0 ⟨"u@x.com", "pw"⟩ =
      .err ⟨.unauthenticated, "invalid credentials", "auth", "u@x.com"⟩) ∧
    (API.Auth ⟨false, false, false, true, false⟩
        [⟨"id0", "u@x.com", sha1hex "pw", "A", "B"⟩] 0 ⟨"u@x.com", "pw"⟩ =
      .err ⟨.internal, "internal error", "auth", "u@x.com"⟩) ∧
    (API.Auth ⟨false, false, false, false, true⟩
        [⟨"id0", "u@x.com", sha1hex "pw", "A", "B"⟩] 0 ⟨"u@x.com", "pw"⟩ =
      .err ⟨.internal, "internal error", "auth", "u@x.com"⟩) ∧
    ((API.CreateUser ⟨false, true, false, false, false⟩ [] [] "id1" 0
        ⟨"u@x.com", "pw", "A", "B"⟩).1 =
      .err ⟨.internal, "internal error", "create_user", "u@x.com"⟩) ∧
    ((API.CreateUser ⟨false, false, true, false, false⟩ [] [] "id1" 0
        ⟨"u@x.com", "pw", "A", "B"⟩).1 =
      .err ⟨.internal, "could not create user", "create_user", "u@x.com"⟩) ∧
    ((API.CreateUser ⟨false, false, false, true, false⟩ [] [] "id1" 0
        ⟨"u@x.com", "pw", "A", "B"⟩).1 =
      .err ⟨.internal, "internal error", "create_user", "u@x.com"⟩) ∧
    ((API.CreateUser ⟨false, false, false, false, true⟩ [] [] "id1" 0
        ⟨"u@x.com", "pw", "A", "B"⟩).1 =
      .err ⟨.internal, "internal error", "create_user", "u@x.com"⟩) :=
  c5_infra_failures [⟨"id0", "u@x.com", sha1hex "pw", "A", "B"⟩] [] [] 0
    "id1" "u@x.com" "pw" ⟨"id0", "u@x.com", sha1hex "pw", "A", "B"⟩
    ⟨"u@x.com", "pw", "A", "B"⟩ rfl rfl (by decide) rfl rfl

/-- C7: `"a@b.co"` passes the email validation (and a `CreateAccount` with it
proceeds to success on a fresh store), while `"abc"`, `"a@b"` and `"@b.com"`
are each rejected as `InvalidArgument "invalid email format"` regardless of
flags and store contents, with the store left untouched — i.e. before any
store access. -/
theorem c7_email_boundary (fl : Flags) (cs is : Store) (uid : String)
    (now : Nat) (pw fn ln : String) :
    isValidEmail "a@b.co" = true ∧
    (API.CreateUser noFail [] [] uid now ⟨"a@b.co", pw, fn, ln⟩).1 =
      .ok (NewToken now "a@b.co") ∧
    API.CreateUser fl cs is uid now ⟨"abc", pw, fn, ln⟩ =
      (.err ⟨.invalidArgument, "invalid email format", "create_user", "abc"⟩, is) ∧
    API.CreateUser fl cs is uid now ⟨"a@b", pw, fn, ln⟩ =
      (.err ⟨.invalidArgument, "invalid email format", "create_user", "a@b"⟩, is) ∧
    API.CreateUser fl cs is uid now ⟨"@b.com", pw, fn, ln⟩ =
      (.err ⟨.invalidArgument, "invalid email format", "create_user", "@b.com"⟩, is) := by
  refine ⟨by decide, rfl, ?_, ?_, ?_⟩ <;>
    simp [API.CreateUser, show isValidEmail "abc" = false from by decide,
      show isValidEmail "a@b" = false from by decide,
      show isValidEmail "@b.com" = false from by decide]

/-- A negative existence probe means `find?` misses on that table. -/
theorem emailTaken_false_find {l : Store} {e : String} (h : emailTaken l e = false) :
    l.find? (fun u => u.Email == e) = none := by
  unfold emailTaken findByEmail at h
  cases hf : l.find? (fun u => u.Email == e) with
  | none => rfl
  | some u => rw [hf] at h; cases h

/-- C1: a user created via `CreateAccount` with email `e` and password `pw`
can then authenticate: `Auth(e, pw)` succeeds, and the email claim extracted
from the returned token (`ExtractClaims`, i.e. `tData["email"]`) equals the
submitted email `e`. -/
theorem c1_create_then_auth (store s' : Store) (uid : String) (now now' : Nat)
    (e pw fn ln : String) (t : TokenStr)
    (hcreate : API.CreateUser noFail store store uid now ⟨e, pw, fn, ln⟩ = (.ok t, s')) :
    API.Auth noFail s' now' ⟨e, pw⟩ = .ok (NewToken now' e) ∧
    extractEmail now' (NewToken now' e) = some e := by
  obtain ⟨hv, hfree, ht, hs⟩ := createUser_ok hcreate
  constructor
  · subst hs
    have hfind : findByEmail (store ++ [⟨uid, e, sha1hex pw, fn, ln⟩]) e =
        some ⟨uid, e, sha1hex pw, fn, ln⟩ := by
      unfold findByEmail
      rw [find_append_of_none (emailTaken_false_find hfree)]
      simp [List.find?]
    simp [API.Auth, Service.ValidateUser, Service.ValidatePassword, noFail, hfind]
  · have hx : ¬ (now' + tokenTTL < now') := by omega
    simp [extractEmail, NewToken, ParseToken, GetClaims, lookupClaim, hx, List.find?]

/-- Witness for C1 at a concrete account. -/
theorem c1_create_then_auth_witness :
    API.Auth noFail store1 5 ⟨"a@x.com", "pw"⟩ = .ok (NewToken 5 "a@x.com") ∧
    extractEmail 5 (NewToken 5 "a@x.com") = some "a@x.com" :=
  c1_create_then_auth [] store1 "id1" 0 5 "a@x.com" "pw" "A" "B"
    (.signed "a@x.com" 0 3600) rfl

/-- C4: an unknown email and a wrong password both produce
`Unauthenticated "invalid credentials"` from `Auth`; code and message
coincide, so the caller cannot distinguish the two causes. -/
theorem c4_unauthenticated_indistinguishable (fl : Flags) (store : Store)
    (now : Nat) (e₁ pw₁ e₂ pw₂ : String) (u : User)
    (hfl : fl.dbFindFails = false)
    (h₁ : findByEmail store e₁ = none)
    (h₂ : findByEmail store e₂ = some u) (h₃ : sha1hex pw₂ ≠ u.Password) :
    API.Auth fl store now ⟨e₁, pw₁⟩ =
      .err ⟨.unauthenticated, "invalid credentials", "auth", e₁⟩ ∧
    API.Auth fl store now ⟨e₂, pw₂⟩ =
      .err ⟨.unauthenticated, "invalid credentials", "auth", e₂⟩ := by
  constructor <;>
    simp [API.Auth, Service.ValidateUser, Service.ValidatePassword, hfl, h₁, h₂, h₃]

/-- Witness for C4: unknown email `n@x.com` and wrong password `wrong` against
the same one-user table. -/
theorem c4_unauthenticated_indistinguishable_witness :
    API.Auth noFail [⟨"id0", "u@x.com", sha1hex "pw", "A", "B"⟩] 0 ⟨"n@x.com", "pw"⟩ =
      .err ⟨.unauthenticated, "invalid credentials", "auth", "n@x.com"⟩ ∧
    API.Auth noFail [⟨"id0", "u@x.com", sha1hex "pw", "A", "B"⟩] 0 ⟨"u@x.com", "wrong"⟩ =
      .err ⟨.unauthenticated, "invalid credentials", "auth", "u@x.com"⟩ :=
  c4_unauthenticated_indistinguishable noFail
    [⟨"id0", "u@x.com", sha1hex "pw", "A", "B"⟩] 0 "n@x.com" "pw" "u@x.com" "wrong"
    ⟨"id0", "u@x.com", sha1hex "pw", "A", "B"⟩ rfl rfl rfl sha1hex_wrong_ne_pw

/-- C8: when credential validation succeeds (user found, password digest
matches) but the `AuthEvent` publish fails, `Auth` returns
`InternalError "internal error"` and no token — fail-closed. -/
theorem c8_publish_fail_closed (store : Store) (now : Nat) (e pw : String)
    (u : User)
    (hfind : findByEmail store e = some u) (hpw : u.Password = sha1hex pw) :
    API.Auth ⟨false, false, false, false, true⟩ store now ⟨e, pw⟩ =
      .err ⟨.internal, "internal error", "auth", e⟩ := by
  simp [API.Auth, Service.ValidateUser, Service.ValidatePassword, hfind, hpw]

/-- Witness for C8 at a concrete matching credential pair. -/
theorem c8_publish_fail_closed_witness :
    API.Auth ⟨false, false, false, false, true⟩
        [⟨"id0", "u@x.com", sha1hex "pw", "A", "B"⟩] 0 ⟨"u@x.com", "pw"⟩ =
      .err ⟨.internal, "internal error", "auth", "u@x.com"⟩ :=
  c8_publish_fail_closed [⟨"id0", "u@x.com", sha1hex "pw", "A", "B"⟩] 0
    "u@x.com" "pw" ⟨"id0", "u@x.com", sha1hex "pw", "A", "B"⟩ rfl rfl

/-- C9 (counterexample): two accounts created with the same plaintext password
`"pw"` — both creations succeed, both rows are stored, and the two stored
digests are EQUAL, not distinct: the digest is unsalted, so password equality
across accounts is observable. -/
theorem c9_counterexample :
    (API.CreateUser noFail [] [] "id1" 0 ⟨"a@x.com", "pw", "A", "B"⟩).1 =
      .ok (.signed "a@x.com" 0 3600) ∧
    (API.CreateUser noFail store1 store1 "id2" 0 ⟨"b@x.com", "pw", "C", "D"⟩).1 =
      .ok (.signed "b@x.com" 0 3600) ∧
    ((findByEmail store2 "a@x.com").map User.Password).isSome = true ∧
    (findByEmail store2 "a@x.com").map User.Password =
      (findByEmail store2 "b@x.com").map User.Password :=
  ⟨rfl, rfl, rfl, rfl⟩

/-- C9 (amended): the stored digest is the deterministic, unsalted
`sha1hex` of the password alone — after creating two accounts with the same
plaintext password, both stored digests equal `sha1hex pw`, hence each
other. -/
theorem c9_unsalted_digest (store s₁ s₂ : Store) (uid₁ uid₂ : String)
    (now₁ now₂ : Nat) (e₁ e₂ pw fn₁ ln₁ fn₂ ln₂ : String) (t₁ t₂ : TokenStr)
    (h₁ : API.CreateUser noFail store store uid₁ now₁ ⟨e₁, pw, fn₁, ln₁⟩ = (.ok t₁, s₁))
    (h₂ : API.CreateUser noFail s₁ s₁ uid₂ now₂ ⟨e₂, pw, fn₂, ln₂⟩ = (.ok t₂, s₂)) :
    (findByEmail s₂ e₁).map User.Password = some (sha1hex pw) ∧
    (findByEmail s₂ e₂).map User.Password = some (sha1hex pw) := by
  obtain ⟨hv₁, hf₁, ht₁, hs₁⟩ := createUser_ok h₁
  obtain ⟨hv₂, hf₂, ht₂, hs₂⟩ := createUser_ok h₂
  subst hs₁ hs₂
  constructor
  · have hsome : (store ++ [(⟨uid₁, e₁, sha1hex pw, fn₁, ln₁⟩ : User)]).find?
        (fun u => u.Email == e₁) = some ⟨uid₁, e₁, sha1hex pw, fn₁, ln₁⟩ := by
      rw [find_append_of_none (emailTaken_false_find hf₁)]
      simp [List.find?]
    unfold findByEmail
    rw [find_append_of_some hsome]
    rfl
  · unfold findByEmail
    rw [find_append_of_none (emailTaken_false_find hf₂)]
    simp [List.find?]

/-- Witness for C9 (amended) on the concrete two-account scenario. -/
theorem c9_unsalted_digest_witness :
    (findByEmail store2 "a@x.com").map User.Password = some (sha1hex "pw") ∧
    (findByEmail store2 "b@x.com").map User.Password = some (sha1hex "pw") :=
  c9_unsalted_digest [] store1 store2 "id1" "id2" 0 0 "a@x.com" "b@x.com" "pw"
    "A" "B" "C" "D" (.signed "a@x.com" 0 3600) (.signed "b@x.com" 0 3600) rfl rfl

/-- C10: `CreateAccount` is not atomic with respect to the `AuthEvent`
publish: when the insert and signing succeed but the publish fails, the
caller receives `InternalError` while the new row remains in the store, so
retrying the same request yields `AlreadyExists`. -/
theorem c10_publish_fail_leaves_row (store : Store) (uid uid₂ : String)
    (now now₂ : Nat) (p : CreateUserParams)
    (hv : isValidEmail p.Email = true) (hfree : emailTaken store p.Email = false) :
    (API.CreateUser ⟨false, false, false, false, true⟩ store store uid now p).1 =
      .err ⟨.internal, "internal error", "create_user", p.Email⟩ ∧
    emailTaken (API.CreateUser ⟨false, false, false, false, true⟩ store store uid now p).2
      p.Email = true ∧
    (API.CreateUser noFail
        (API.CreateUser ⟨false, false, false, false, true⟩ store store uid now p).2
        (API.CreateUser ⟨false, false, false, false, true⟩ store store uid now p).2
        uid₂ now₂ p).1 =
      .err ⟨.alreadyExists, "email already exists", "create_user", p.Email⟩ := by
  have hrun : API.CreateUser ⟨false, false, false, false, true⟩ store store uid now p =
      (.err ⟨.internal, "internal error", "create_user", p.Email⟩,
       store ++ [⟨uid, p.Email, sha1hex p.Password, p.FirstName, p.LastName⟩]) := by
    simp [API.CreateUser, Service.UserExists, Service.CreateUser, Service.dbInsert,
      hv, hfree]
  have htaken : emailTaken
      (store ++ [(⟨uid, p.Email, sha1hex p.Password, p.FirstName, p.LastName⟩ : User)])
      p.Email = true := by
    unfold emailTaken findByEmail
    rw [find_append_of_none (emailTaken_false_find hfree)]
    simp [List.find?]
  rw [hrun]
  exact ⟨rfl, htaken, by simp [API.CreateUser, Service.UserExists, noFail, hv, htaken]⟩

/-- The email of the race scenario passes validation. -/
theorem pA0_email_valid : isValidEmail "u@x.com" = true := by decide

/-- Every scheduler step preserves the reachable-state invariant of the race
scenario. -/
theorem raceInv_step {st : TwoReqs} (h : RaceInv st) (pick : Bool) :
    RaceInv (schedStep noFail "ida" "idb" 0 pA0 pB0 st pick) := by
  rcases h with h|h|h|h|h|h|h|h|h|h|h|h <;> subst h <;> cases pick <;>
    simp [RaceInv, schedStep, reqStep, Service.UserExists, Service.CreateUser,
      Service.dbInsert, emailTaken, findByEmail, noFail, pA0, pB0, uA, uB, okR,
      alreadyR, conflictR, NewToken, tokenTTL, List.find?, pA0_email_valid]

/-- Every schedule keeps the race scenario within its reachable states. -/
theorem raceInv_run : ∀ (sched : List Bool) (st : TwoReqs), RaceInv st →
    RaceInv (runSched noFail "ida" "idb" 0 pA0 pB0 sched st)
  | [], _, h => h
  | b :: t, st, h => raceInv_run t _ (raceInv_step h b)

/-- C6 (counterexample): in the interleaving where both advisory probes run
before either insert (schedule `A`-check, `B`-check, `A`-insert, `B`-insert,
from an empty table), request `A` succeeds but request `B` — whose insert hit
the store's uniqueness conflict — receives `InternalError "could not create
user"`, NOT the `AlreadyExists` the claim asserts for the loser. -/
theorem c6_counterexample :
    (runSched noFail "ida" "idb" 0 pA0 pB0 [true, false, true, false]
        ⟨.atCheck, .atCheck, []⟩).pa = .done okR ∧
    (runSched noFail "ida" "idb" 0 pA0 pB0 [true, false, true, false]
        ⟨.atCheck, .atCheck, []⟩).pb = .done conflictR ∧
    conflictR ≠ alreadyR := ⟨rfl, rfl, by decide⟩

/-- C6 (amended): for EVERY interleaving of two concurrent same-email
`CreateUser` requests that completes both, exactly one request succeeds with
a token — decided by the store's atomic uniqueness constraint — and the loser
receives either `AlreadyExists` (its advisory probe saw the winner's row) or
`InternalError` (its insert hit the store conflict, which the handler maps to
`InternalError` rather than `AlreadyExists`). -/
theorem c6_exactly_one_success (sched : List Bool) (ra rb : CreateUserResult)
    (ha : (runSched noFail "ida" "idb" 0 pA0 pB0 sched
      ⟨.atCheck, .atCheck, []⟩).pa = .done ra)
    (hb : (runSched noFail "ida" "idb" 0 pA0 pB0 sched
      ⟨.atCheck, .atCheck, []⟩).pb = .done rb) :
    (ra = okR ∧ (rb = alreadyR ∨ rb = conflictR)) ∨
    (rb = okR ∧ (ra = alreadyR ∨ ra = conflictR)) := by
  have h := raceInv_run sched ⟨.atCheck, .atCheck, []⟩ (Or.inl rfl)
  rcases h with h|h|h|h|h|h|h|h|h|h|h|h <;> rw [h] at ha hb <;> simp_all

/-- Witness for C6 (amended) on the conflicting interleaving. -/
theorem c6_exactly_one_success_witness :
    (okR = okR ∧ (conflictR = alreadyR ∨ conflictR = conflictR)) ∨
    (conflictR = okR ∧ (okR = alreadyR ∨ okR = conflictR)) :=
  c6_exactly_one_success [true, false, true, false] okR conflictR rfl rfl

/-- Witness for C10 at a concrete request. -/
theorem c10_publish_fail_leaves_row_witness :
    (API.CreateUser ⟨false, false, false, false, true⟩ [] [] "id1" 0 pA0).1 =
      .err ⟨.internal, "internal error", "create_user", "u@x.com"⟩ ∧
    emailTaken (API.CreateUser ⟨false, false, false, false, true⟩ [] [] "id1" 0 pA0).2
      "u@x.com" = true ∧
    (API.CreateUser noFail
        (API.CreateUser ⟨false, false, false, false, true⟩ [] [] "id1" 0 pA0).2
        (API.CreateUser ⟨false, false, false, false, true⟩ [] [] "id1" 0 pA0).2
        "id2" 7 pA0).1 =
      .err ⟨.alreadyExists, "email already exists", "create_user", "u@x.com"⟩ :=
  c10_publish_fail_leaves_row [] "id1" "id2" 0 7 pA0 (by decide) rfl

end Monetz
